import Mathlib

/-!
Shallow embedding of the order payment-PIN verification workflow of
src/shop/models.py (class Order). Timestamps are integers (seconds);
every reading of the wall clock inside one method call is modelled as
the single instant at which the call runs, passed in as the parameter
now. The persistence layer is abstracted away: a method that saves the
order simply returns the updated order value, and the uniqueness query
of generate_payment_pin receives the visible table rows as a list.
Randomness is modelled by a finite list of seeds, one per draw of the
random 6-digit string; the draw loop returns none when the seed list is
exhausted. Comparing a timestamp with a missing value raises in the
source, so verify_payment_pin returns an Option and yields none on that
path.
-/

namespace Shop

/-- Order status choices of the Django model (STATUS_CHOICES). -/
inductive OrderStatus where
  | PENDING
  | PROCESSING
  | SHIPPED
  | DELIVERED
  | CANCELLED
  | REFUNDED
deriving DecidableEq, Repr

/-- The payment-relevant fields of the Order model. Staff users are
identified by a Nat id; payment_verified_by is a nullable reference. -/
structure Order where
  status : OrderStatus
  payment_status : Bool
  payment_pin : String
  payment_pin_generated_at : Option Int
  payment_pin_expires_at : Option Int
  payment_confirmed_at : Option Int
  payment_verified_by : Option Nat
  payment_attempts : Int
  last_payment_attempt : Option Int
deriving DecidableEq, Repr

/-- Field defaults of the Order model: status PENDING, payment_status
False, empty PIN, null timestamps, zero attempts. -/
def newOrder : Order :=
  { status := OrderStatus.PENDING
    payment_status := false
    payment_pin := ""
    payment_pin_generated_at := none
    payment_pin_expires_at := none
    payment_confirmed_at := none
    payment_verified_by := none
    payment_attempts := 0
    last_payment_attempt := none }

/-- Whitespace characters stripped by the Python str.strip method
(ASCII range). -/
def pyIsSpace (c : Char) : Bool :=
  c = ' ' || c = '\t' || c = '\n' || c = '\x0d' || c = '\x0b' || c = '\x0c'

/-- Python str.strip with no arguments: drop whitespace from both ends. -/
def pyStrip (s : String) : String :=
  String.mk (((s.data.dropWhile pyIsSpace).reverse.dropWhile pyIsSpace).reverse)

def alreadyConfirmedMsg : String :=
  "Payment has already been confirmed for this order."

def noPinMsg : String :=
  "No payment PIN generated for this order. Please contact support."

def expiredMsg : String :=
  "Payment PIN has expired. Please contact support for a new PIN."

def lockoutMsg : String :=
  "Too many failed attempts. Please wait 5 minutes and try again."

def invalidPinMsg (attempts_left : Int) : String :=
  "Invalid payment PIN. " ++ toString attempts_left ++ " attempt(s) remaining."

def tooManyMsg : String :=
  "Invalid payment PIN. Too many failed attempts. Please contact support."

def verifiedMsg : String :=
  "Payment PIN verified successfully."

def confirmedMsg : String :=
  "Payment confirmed successfully. Order is now being processed."

/-- One digit character, the value n modulo 10 rendered in ASCII; a
single draw of random.choices(string.digits) for one position. -/
def digitChar (n : Nat) : Char :=
  match n % 10 with
  | 0 => '0'
  | 1 => '1'
  | 2 => '2'
  | 3 => '3'
  | 4 => '4'
  | 5 => '5'
  | 6 => '6'
  | 7 => '7'
  | 8 => '8'
  | _ => '9'

/-- One draw of the 6-digit random PIN string: the seed encodes the six
independently drawn digits (leading zeros allowed). -/
def pinFromSeed (s : Nat) : String :=
  String.mk [digitChar (s / 100000), digitChar (s / 10000), digitChar (s / 1000),
             digitChar (s / 100), digitChar (s / 10), digitChar s]

/-- The filter condition payment_pin_expires_at__gt=timezone.now() of
the uniqueness query: the stored expiry is strictly in the future. -/
def pinExpiresAfter (o : Order) (now : Int) : Bool :=
  match o.payment_pin_expires_at with
  | some e => decide (now < e)
  | none => false

/-- The uniqueness query of generate_payment_pin: does any visible row
hold this PIN with a strictly unexpired expiry. -/
def hasLivePinConflict (db : List Order) (pin : String) (now : Int) : Bool :=
  db.any (fun b => b.payment_pin = pin && pinExpiresAfter b now)

/-- The draw-then-redraw-while-collision loop of generate_payment_pin,
one seed per draw; none when the modelled randomness is exhausted. -/
def drawUniquePin (seeds : List Nat) (db : List Order) (now : Int) : Option String :=
  match seeds with
  | [] => none
  | s :: rest =>
      let pin := pinFromSeed s
      if hasLivePinConflict db pin now then drawUniquePin rest db now
      else some pin

/-- Order.generate_payment_pin: draw a unique 6-digit PIN, stamp
generation and expiry (24 hours), reset the attempt counter, record the
issuer only when one is given (the Python code guards the assignment
with a truthiness test on the user argument), save, and return the
PIN. -/
def generate_payment_pin (o : Order) (db : List Order) (seeds : List Nat)
    (user : Option Nat) (now : Int) : Option (String × Order) :=
  match drawUniquePin seeds db now with
  | none => none
  | some pin =>
      some (pin,
        { o with
          payment_pin := pin
          payment_pin_generated_at := some now
          payment_pin_expires_at := some (now + 24 * 60 * 60)
          payment_attempts := 0
          last_payment_attempt := none
          payment_verified_by :=
            if user.isSome then user else o.payment_verified_by })

/-- The rate-limiting test of verify_payment_pin: at least 5 failed
attempts and the last failed attempt less than 300 seconds ago. -/
def lockedOut (o : Order) (now : Int) : Bool :=
  match o.last_payment_attempt with
  | some l => decide (5 ≤ o.payment_attempts) && decide (now - l < 300)
  | none => false

/-- Order.verify_payment_pin: the ordered checks of the source, in
order: already confirmed, no PIN present, expired, locked out, then the
comparison of the stripped candidate with the stored PIN. Returns the
(success, message) pair together with the possibly updated order; none
models the TypeError the source raises when a PIN is present but
payment_pin_expires_at is null. -/
def verify_payment_pin (o : Order) (pin : String) (increment_attempts : Bool)
    (now : Int) : Option (Bool × String × Order) :=
  if o.payment_status then
    some (false, alreadyConfirmedMsg, o)
  else if o.payment_pin = "" ∨ o.payment_pin_generated_at = none then
    some (false, noPinMsg, o)
  else
    match o.payment_pin_expires_at with
    | none => none
    | some e =>
        if e < now then
          some (false, expiredMsg, o)
        else if lockedOut o now then
          some (false, lockoutMsg, o)
        else if o.payment_pin ≠ pyStrip pin then
          let o1 :=
            if increment_attempts then
              { o with payment_attempts := o.payment_attempts + 1
                       last_payment_attempt := some now }
            else o
          let attempts_left := 5 - o1.payment_attempts
          if 0 < attempts_left then
            some (false, invalidPinMsg attempts_left, o1)
          else
            some (false, tooManyMsg, o1)
        else
          some (true, verifiedMsg, o)

/-- Order.confirm_payment: unconditionally confirm, stamp the
confirmation, move the order to PROCESSING, record the verifier (also
when null), scrub the PIN data, save, and report success. -/
def confirm_payment (o : Order) (user : Option Nat) (now : Int) :
    (Bool × String) × Order :=
  ((true, confirmedMsg),
   { o with
     payment_status := true
     payment_confirmed_at := some now
     status := OrderStatus.PROCESSING
     payment_verified_by := user
     payment_pin := ""
     payment_attempts := 0
     last_payment_attempt := none })

/-- Order.confirm_payment_with_pin: verify, then confirm on success;
on failure return the verification message untouched. -/
def confirm_payment_with_pin (o : Order) (pin : String) (user : Option Nat)
    (now : Int) : Option ((Bool × String) × Order) :=
  match verify_payment_pin o pin true now with
  | none => none
  | some (success, message, o1) =>
      if success then some (confirm_payment o1 user now)
      else some ((false, message), o1)

/-- Order.is_payment_pin_valid: a PIN is present, an expiry is present,
and now is at or before the expiry. -/
def is_payment_pin_valid (o : Order) (now : Int) : Bool :=
  if o.payment_pin = "" then false
  else
    match o.payment_pin_expires_at with
    | none => false
    | some e => decide (now ≤ e)

/-- Order.reset_payment_pin: clear the PIN, both timestamps, the
attempt counter and the last-attempt stamp, and save. -/
def reset_payment_pin (o : Order) : Order :=
  { o with
    payment_pin := ""
    payment_pin_generated_at := none
    payment_pin_expires_at := none
    payment_attempts := 0
    last_payment_attempt := none }

/-- Order.can_generate_new_pin: true when no PIN was ever generated,
when the current PIN is no longer valid, or when the 1-hour cooldown
since generation has elapsed. -/
def can_generate_new_pin (o : Order) (now : Int) : Bool :=
  match o.payment_pin_generated_at with
  | none => true
  | some g =>
      if is_payment_pin_valid o now then decide (3600 ≤ now - g)
      else true

/-- Invariant of the data model section of the spec: once payment is
confirmed the PIN data is scrubbed. -/
def pinScrubbed (o : Order) : Prop :=
  o.payment_status = true →
    o.payment_pin = "" ∧ o.payment_attempts = 0 ∧ o.last_payment_attempt = none

instance (o : Order) : Decidable (pinScrubbed o) := by
  unfold pinScrubbed
  infer_instance

/-- Pairwise distinctness of the PIN values of the visible rows whose
expiry is strictly in the future (the liveness notion of the uniqueness
query). -/
def distinctLivePins (db : List Order) (now : Int) : Prop :=
  db.Pairwise (fun a b =>
    pinExpiresAfter a now = true → pinExpiresAfter b now = true →
      a.payment_pin ≠ b.payment_pin)

/-! Concrete states used by witnesses and counterexamples. -/

/-- The result of generating a PIN on a fresh order with seed 0 at
time 0 (no other rows visible). -/
def newOrderGen : Order :=
  { newOrder with
    payment_pin := "000000"
    payment_pin_generated_at := some 0
    payment_pin_expires_at := some 86400 }

/-- An already-confirmed order, with its PIN data scrubbed. -/
def confirmedOrder : Order :=
  { newOrder with
    payment_status := true
    status := OrderStatus.PROCESSING
    payment_confirmed_at := some 0 }

/-- The state generate_payment_pin produces when called on the
already-confirmed order with seed 0 at time 0. -/
def confirmedOrderGen : Order :=
  { confirmedOrder with
    payment_pin := "000000"
    payment_pin_generated_at := some 0
    payment_pin_expires_at := some 86400 }

/-- An order whose PIN was issued by staff member 7. -/
def issuedOrder : Order :=
  { newOrder with
    payment_pin := "111111"
    payment_pin_generated_at := some (-7200)
    payment_pin_expires_at := some 79200
    payment_verified_by := some 7 }

/-- The state generate_payment_pin produces when called on issuedOrder
with seed 0 at time 0 and a null issuer. -/
def issuedOrderGen : Order :=
  { issuedOrder with
    payment_pin := "000000"
    payment_pin_generated_at := some 0
    payment_pin_expires_at := some 86400 }

/-- A stored order whose PIN expires exactly at time 0: still valid at
time 0 per is_payment_pin_valid, but not matched by the strict
uniqueness query at time 0. -/
def boundaryOrder : Order :=
  { newOrder with
    payment_pin := "000000"
    payment_pin_generated_at := some (-86400)
    payment_pin_expires_at := some 0 }

/-- An order holding PIN 123456, generated at time 0, with the default
counters; the running example of the scenario section of the spec. -/
def pinnedOrder : Order :=
  { newOrder with
    payment_pin := "123456"
    payment_pin_generated_at := some 0
    payment_pin_expires_at := some 86400 }

/-- The pinnedOrder after one failed attempt at time 3600. -/
def pinnedOrderFailed : Order :=
  { pinnedOrder with
    payment_attempts := 1
    last_payment_attempt := some 3600 }

/-- The pinnedOrder after five failed attempts, the last at time 3500. -/
def lockedOrder : Order :=
  { pinnedOrder with
    payment_attempts := 5
    last_payment_attempt := some 3500 }

/-! Helper lemmas shared by several claims. -/

/-- Anatomy of a successful generate_payment_pin call. -/
lemma generate_eq (o : Order) (db : List Order) (seeds : List Nat)
    (user : Option Nat) (now : Int) (p : String) (o2 : Order)
    (h : generate_payment_pin o db seeds user now = some (p, o2)) :
    drawUniquePin seeds db now = some p ∧
    o2 = { o with
           payment_pin := p
           payment_pin_generated_at := some now
           payment_pin_expires_at := some (now + 24 * 60 * 60)
           payment_attempts := 0
           last_payment_attempt := none
           payment_verified_by :=
             if user.isSome then user else o.payment_verified_by } := by
  unfold generate_payment_pin at h
  cases hd : drawUniquePin seeds db now with
  | none => rw [hd] at h; simp at h
  | some pin =>
      rw [hd] at h
      simp only [Option.some.injEq, Prod.mk.injEq] at h
      obtain ⟨hp, ho⟩ := h
      subst hp
      exact ⟨rfl, ho.symm⟩

/-- Every character produced by digitChar is an ASCII digit. -/
lemma digitChar_isDigit (n : Nat) : (digitChar n).isDigit = true := by
  unfold digitChar
  rcases h10 : n % 10 with _ | _ | _ | _ | _ | _ | _ | _ | _ | k <;> rfl

/-- Every drawn PIN string has exactly six characters. -/
lemma pinFromSeed_length (s : Nat) : (pinFromSeed s).length = 6 := rfl

/-- Every drawn PIN string consists of ASCII digits only. -/
lemma pinFromSeed_digits (s : Nat) :
    (pinFromSeed s).data.all Char.isDigit = true := by
  simp [pinFromSeed, digitChar_isDigit]

/-- A successful draw loop returns a drawn 6-digit string with no live
conflict among the visible rows. -/
lemma drawUniquePin_spec (seeds : List Nat) (db : List Order) (now : Int)
    (p : String) (h : drawUniquePin seeds db now = some p) :
    (∃ s, p = pinFromSeed s) ∧ hasLivePinConflict db p now = false := by
  induction seeds with
  | nil => simp [drawUniquePin] at h
  | cons s rest ih =>
      unfold drawUniquePin at h
      by_cases hc : hasLivePinConflict db (pinFromSeed s) now = true
      · rw [if_pos hc] at h
        exact ih h
      · rw [if_neg hc] at h
        simp only [Option.some.injEq] at h
        subst h
        exact ⟨⟨s, rfl⟩, Bool.not_eq_true _ ▸ hc⟩

/-- Branch evaluation: payment already confirmed. -/
lemma verify_already_confirmed (o : Order) (c : String) (inc : Bool) (now : Int)
    (hps : o.payment_status = true) :
    verify_payment_pin o c inc now = some (false, alreadyConfirmedMsg, o) := by
  unfold verify_payment_pin
  rw [if_pos hps]

/-- Branch evaluation: no PIN present. -/
lemma verify_no_pin (o : Order) (c : String) (inc : Bool) (now : Int)
    (hps : o.payment_status = false)
    (hnp : o.payment_pin = "" ∨ o.payment_pin_generated_at = none) :
    verify_payment_pin o c inc now = some (false, noPinMsg, o) := by
  unfold verify_payment_pin
  rw [if_neg (by simp [hps]), if_pos hnp]

/-- Branch evaluation: the PIN has expired. -/
lemma verify_expired (o : Order) (c : String) (inc : Bool) (now e : Int)
    (hps : o.payment_status = false)
    (hnp : ¬(o.payment_pin = "" ∨ o.payment_pin_generated_at = none))
    (hexp : o.payment_pin_expires_at = some e)
    (he : e < now) :
    verify_payment_pin o c inc now = some (false, expiredMsg, o) := by
  unfold verify_payment_pin
  rw [if_neg (by simp [hps]), if_neg hnp, hexp]
  dsimp only
  rw [if_pos he]

/-- Branch evaluation: rate limited. -/
lemma verify_locked (o : Order) (c : String) (inc : Bool) (now e : Int)
    (hps : o.payment_status = false)
    (hnp : ¬(o.payment_pin = "" ∨ o.payment_pin_generated_at = none))
    (hexp : o.payment_pin_expires_at = some e)
    (he : ¬ e < now)
    (hlk : lockedOut o now = true) :
    verify_payment_pin o c inc now = some (false, lockoutMsg, o) := by
  unfold verify_payment_pin
  rw [if_neg (by simp [hps]), if_neg hnp, hexp]
  dsimp only
  rw [if_neg he, if_pos hlk]

/-- Branch evaluation: wrong candidate with attempt counting on. -/
lemma verify_wrong_pin_inc (o : Order) (c : String) (now e : Int)
    (hps : o.payment_status = false)
    (hnp : ¬(o.payment_pin = "" ∨ o.payment_pin_generated_at = none))
    (hexp : o.payment_pin_expires_at = some e)
    (he : ¬ e < now)
    (hlk : lockedOut o now = false)
    (hne : o.payment_pin ≠ pyStrip c) :
    verify_payment_pin o c true now =
      some (false,
        if 0 < 5 - (o.payment_attempts + 1)
        then invalidPinMsg (5 - (o.payment_attempts + 1))
        else tooManyMsg,
        { o with
          payment_attempts := o.payment_attempts + 1
          last_payment_attempt := some now }) := by
  unfold verify_payment_pin
  rw [if_neg (by simp [hps]), if_neg hnp, hexp]
  dsimp only
  rw [if_neg he, if_neg (by simp [hlk]), if_pos hne]
  by_cases hleft : (0 : Int) < 5 - (o.payment_attempts + 1) <;>
    simp [hleft]

/-- Branch evaluation: wrong candidate with attempt counting off. -/
lemma verify_wrong_pin_noinc (o : Order) (c : String) (now e : Int)
    (hps : o.payment_status = false)
    (hnp : ¬(o.payment_pin = "" ∨ o.payment_pin_generated_at = none))
    (hexp : o.payment_pin_expires_at = some e)
    (he : ¬ e < now)
    (hlk : lockedOut o now = false)
    (hne : o.payment_pin ≠ pyStrip c) :
    verify_payment_pin o c false now =
      some (false,
        if 0 < 5 - o.payment_attempts
        then invalidPinMsg (5 - o.payment_attempts)
        else tooManyMsg,
        o) := by
  unfold verify_payment_pin
  rw [if_neg (by simp [hps]), if_neg hnp, hexp]
  dsimp only
  rw [if_neg he, if_neg (by simp [hlk]), if_pos hne]
  by_cases hleft : (0 : Int) < 5 - o.payment_attempts <;>
    simp [hleft]

/-- Branch evaluation: correct candidate. -/
lemma verify_correct_pin (o : Order) (c : String) (inc : Bool) (now e : Int)
    (hps : o.payment_status = false)
    (hnp : ¬(o.payment_pin = "" ∨ o.payment_pin_generated_at = none))
    (hexp : o.payment_pin_expires_at = some e)
    (he : ¬ e < now)
    (hlk : lockedOut o now = false)
    (heq : o.payment_pin = pyStrip c) :
    verify_payment_pin o c inc now = some (true, verifiedMsg, o) := by
  unfold verify_payment_pin
  rw [if_neg (by simp [hps]), if_neg hnp, hexp]
  dsimp only
  rw [if_neg he, if_neg (by simp [hlk]), if_neg (by simp [heq])]

/-- A result state of verify_payment_pin is either the input order
unchanged, or a state still awaiting payment. -/
lemma verify_result_state (o : Order) (c : String) (inc : Bool) (now : Int)
    (b : Bool) (m : String) (o1 : Order)
    (h : verify_payment_pin o c inc now = some (b, m, o1)) :
    o1 = o ∨ (o.payment_status = false ∧ o1.payment_status = false) := by
  by_cases hps : o.payment_status = true
  · rw [verify_already_confirmed o c inc now hps] at h
    simp only [Option.some.injEq, Prod.mk.injEq] at h
    exact Or.inl h.2.2.symm
  · simp only [Bool.not_eq_true] at hps
    refine Or.imp id (fun h1 => ⟨hps, h1⟩) ?_
    by_cases hnp : o.payment_pin = "" ∨ o.payment_pin_generated_at = none
    · rw [verify_no_pin o c inc now hps hnp] at h
      simp only [Option.some.injEq, Prod.mk.injEq] at h
      exact Or.inl h.2.2.symm
    · cases hexp : o.payment_pin_expires_at with
      | none =>
          exfalso
          unfold verify_payment_pin at h
          rw [if_neg (by simp [hps]), if_neg hnp, hexp] at h
          exact absurd h (by simp)
      | some e =>
          by_cases he : e < now
          · rw [verify_expired o c inc now e hps hnp hexp he] at h
            simp only [Option.some.injEq, Prod.mk.injEq] at h
            exact Or.inl h.2.2.symm
          · by_cases hlk : lockedOut o now = true
            · rw [verify_locked o c inc now e hps hnp hexp he hlk] at h
              simp only [Option.some.injEq, Prod.mk.injEq] at h
              exact Or.inl h.2.2.symm
            · simp only [Bool.not_eq_true] at hlk
              by_cases hne : o.payment_pin = pyStrip c
              · rw [verify_correct_pin o c inc now e hps hnp hexp he hlk hne] at h
                simp only [Option.some.injEq, Prod.mk.injEq] at h
                exact Or.inl h.2.2.symm
              · cases inc with
                | true =>
                    rw [verify_wrong_pin_inc o c now e hps hnp hexp he hlk hne] at h
                    simp only [Option.some.injEq, Prod.mk.injEq] at h
                    obtain ⟨-, -, rfl⟩ := h
                    exact Or.inr hps
                | false =>
                    rw [verify_wrong_pin_noinc o c now e hps hnp hexp he hlk hne] at h
                    simp only [Option.some.injEq, Prod.mk.injEq] at h
                    obtain ⟨-, -, rfl⟩ := h
                    exact Or.inr hps


/-! Claim theorems. -/

/-- C1: every successful generate_payment_pin stamps the generation
instant and an expiry exactly 24 hours (86400 seconds) later, so the
resulting state satisfies expiresAt = generatedAt + 24h. -/
theorem C1_expiry_exactly_24h_after_generation (o : Order) (db : List Order)
    (seeds : List Nat) (user : Option Nat) (now : Int) (p : String) (o2 : Order)
    (h : generate_payment_pin o db seeds user now = some (p, o2)) :
    o2.payment_pin_generated_at = some now ∧
    o2.payment_pin_expires_at = some (now + 24 * 60 * 60) := by
  unfold generate_payment_pin at h
  cases hd : drawUniquePin seeds db now with
  | none => rw [hd] at h; simp at h
  | some pin =>
      rw [hd] at h
      simp only [Option.some.injEq, Prod.mk.injEq] at h
      obtain ⟨-, ho⟩ := h
      subst ho
      exact ⟨rfl, rfl⟩

/-- Witness for C1 at a concrete generation. -/
theorem C1_expiry_exactly_24h_after_generation_witness :
    newOrderGen.payment_pin_generated_at = some 0 ∧
    newOrderGen.payment_pin_expires_at = some (0 + 24 * 60 * 60) :=
  C1_expiry_exactly_24h_after_generation newOrder [] [0] none 0 "000000"
    newOrderGen (by decide)

/-- C6: confirm_payment is unconditional: for every prior state it
returns success with the confirmation message, sets paymentStatus,
stamps the confirmation instant, moves the order to PROCESSING, records
the issuer (also when null), and scrubs the PIN, the attempt counter
and the last-attempt stamp. -/
theorem C6_confirm_payment_unconditional (o : Order) (user : Option Nat)
    (now : Int) :
    (confirm_payment o user now).1 = (true, confirmedMsg) ∧
    (confirm_payment o user now).2.payment_status = true ∧
    (confirm_payment o user now).2.payment_confirmed_at = some now ∧
    (confirm_payment o user now).2.status = OrderStatus.PROCESSING ∧
    (confirm_payment o user now).2.payment_verified_by = user ∧
    (confirm_payment o user now).2.payment_pin = "" ∧
    (confirm_payment o user now).2.payment_attempts = 0 ∧
    (confirm_payment o user now).2.last_payment_attempt = none :=
  ⟨rfl, rfl, rfl, rfl, rfl, rfl, rfl, rfl⟩

/-- C2 counterexample: the scrubbed invariant is not preserved by every
operation. generate_payment_pin does not check payment_status, so called
on an already-confirmed (and scrubbed) order it produces a state that is
confirmed yet carries a non-empty PIN. -/
theorem C2_generate_on_confirmed_counterexample :
    pinScrubbed confirmedOrder ∧
    generate_payment_pin confirmedOrder [] [0] none 0 =
      some ("000000", confirmedOrderGen) ∧
    confirmedOrderGen.payment_status = true ∧
    ¬ pinScrubbed confirmedOrderGen := by decide

/-- C2 amended: in a state satisfying the scrubbed invariant, every
state produced by verify_payment_pin, confirm_payment or
reset_payment_pin satisfies it again, and generate_payment_pin
preserves it whenever payment is not yet confirmed; generation on a
confirmed order is the one violating operation. -/
theorem C2_scrub_invariant_amended (o : Order) (h : pinScrubbed o) :
    (∀ c inc now b m o1,
        verify_payment_pin o c inc now = some (b, m, o1) → pinScrubbed o1) ∧
    (∀ user now, pinScrubbed (confirm_payment o user now).2) ∧
    pinScrubbed (reset_payment_pin o) ∧
    (∀ db seeds user now p o2, o.payment_status = false →
        generate_payment_pin o db seeds user now = some (p, o2) →
        pinScrubbed o2) := by
  refine ⟨?_, ?_, ?_, ?_⟩
  · intro c inc now b m o1 hv
    rcases verify_result_state o c inc now b m o1 hv with rfl | ⟨-, h1⟩
    · exact h
    · intro hcontra
      rw [h1] at hcontra
      exact absurd hcontra (by simp)
  · intro user now
    intro _
    exact ⟨rfl, rfl, rfl⟩
  · intro _
    exact ⟨rfl, rfl, rfl⟩
  · intro db seeds user now p o2 hps hg
    obtain ⟨-, rfl⟩ := generate_eq o db seeds user now p o2 hg
    intro hcontra
    exact absurd (hps ▸ hcontra) (by simp)

/-- Witness for C2 amended: the invariant discharged on the fresh
order, exercising the verify and confirm conjuncts concretely. -/
theorem C2_scrub_invariant_amended_witness :
    pinScrubbed (reset_payment_pin newOrder) ∧
    pinScrubbed (confirm_payment newOrder none 0).2 ∧
    pinScrubbed newOrder := by
  have h := C2_scrub_invariant_amended newOrder (by decide)
  exact ⟨h.2.2.1, h.2.1 none 0,
    h.1 "1" true 0 false noPinMsg newOrder (by decide)⟩

/-- C8 counterexample: generate_payment_pin called with a null issuer
does not record the null issuer: the previously recorded staff member
is kept, so paymentVerifiedBy differs from the issuer argument. -/
theorem C8_null_issuer_counterexample :
    generate_payment_pin issuedOrder [] [0] none 0 =
      some ("000000", issuedOrderGen) ∧
    issuedOrderGen.payment_verified_by = some 7 ∧
    issuedOrderGen.payment_verified_by ≠ none := by decide

/-- C8 amended: every successful generation stamps the generation
instant and resets the attempt counter and last-attempt stamp; the
issuer is recorded only when one is present, and with a null issuer the
previously recorded value is kept unchanged. -/
theorem C8_generate_resets_and_conditionally_records_issuer
    (o : Order) (db : List Order) (seeds : List Nat) (user : Option Nat)
    (now : Int) (p : String) (o2 : Order)
    (h : generate_payment_pin o db seeds user now = some (p, o2)) :
    o2.payment_pin_generated_at = some now ∧
    o2.payment_attempts = 0 ∧
    o2.last_payment_attempt = none ∧
    (∀ u, user = some u → o2.payment_verified_by = some u) ∧
    (user = none → o2.payment_verified_by = o.payment_verified_by) := by
  obtain ⟨-, rfl⟩ := generate_eq o db seeds user now p o2 h
  refine ⟨rfl, rfl, rfl, ?_, ?_⟩
  · rintro u rfl
    rfl
  · rintro rfl
    rfl

/-- Witness for C8 amended at a concrete generation with a present
issuer and at one with a null issuer. -/
theorem C8_generate_resets_and_conditionally_records_issuer_witness :
    issuedOrderGen.payment_attempts = 0 ∧
    issuedOrderGen.payment_verified_by = issuedOrder.payment_verified_by := by
  have h := C8_generate_resets_and_conditionally_records_issuer
    issuedOrder [] [0] none 0 "000000" issuedOrderGen (by decide)
  exact ⟨h.2.1, h.2.2.2.2 rfl⟩

/-- C3: with payment unconfirmed, a present unexpired PIN, at least
five failed attempts and a recorded last attempt, verification fails
with the lockout message while fewer than 300 seconds have elapsed
since the last attempt, even for the correct (trimmed-equal) candidate;
once at least 300 seconds have elapsed, the correct candidate verifies
successfully. -/
theorem C3_lockout_window_blocks_then_clears (o : Order) (c : String)
    (inc : Bool) (now e g l : Int)
    (hps : o.payment_status = false)
    (hpin : o.payment_pin ≠ "")
    (hgen : o.payment_pin_generated_at = some g)
    (hexp : o.payment_pin_expires_at = some e)
    (hnow : now ≤ e)
    (hatt : 5 ≤ o.payment_attempts)
    (hl : o.last_payment_attempt = some l)
    (hc : pyStrip c = o.payment_pin) :
    (now - l < 300 →
      verify_payment_pin o c inc now = some (false, lockoutMsg, o)) ∧
    (300 ≤ now - l →
      verify_payment_pin o c inc now = some (true, verifiedMsg, o)) := by
  have hnp : ¬(o.payment_pin = "" ∨ o.payment_pin_generated_at = none) := by
    simp [hpin, hgen]
  have he : ¬ e < now := not_lt.mpr hnow
  constructor
  · intro hlt
    refine verify_locked o c inc now e hps hnp hexp he ?_
    unfold lockedOut
    rw [hl]
    simp [hatt, hlt]
  · intro hge
    refine verify_correct_pin o c inc now e hps hnp hexp he ?_ hc.symm
    unfold lockedOut
    rw [hl]
    simp [not_lt.mpr hge]

/-- Witness for C3: five failures recorded at time 3500; at time 3600
the correct PIN is still rejected, at time 3800 it is accepted. -/
theorem C3_lockout_window_blocks_then_clears_witness :
    verify_payment_pin lockedOrder "123456" true 3600 =
      some (false, lockoutMsg, lockedOrder) ∧
    verify_payment_pin lockedOrder "123456" true 3800 =
      some (true, verifiedMsg, lockedOrder) := by
  constructor
  · exact (C3_lockout_window_blocks_then_clears lockedOrder "123456" true
      3600 86400 0 3500 (by decide) (by decide) (by decide) (by decide)
      (by decide) (by decide) (by decide) (by decide)).1 (by decide)
  · exact (C3_lockout_window_blocks_then_clears lockedOrder "123456" true
      3800 86400 0 3500 (by decide) (by decide) (by decide) (by decide)
      (by decide) (by decide) (by decide) (by decide)).2 (by decide)

/-- C4: past the confirmed, PIN-present, expiry and lockout checks, a
wrong candidate with attempt counting on increments the counter by
exactly one, stamps the failed attempt at now, and reports the
remaining attempts (five minus the updated counter) when positive, the
terminal too-many message otherwise. -/
theorem C4_wrong_pin_increments_and_reports (o : Order) (c : String)
    (now e g : Int)
    (hps : o.payment_status = false)
    (hpin : o.payment_pin ≠ "")
    (hgen : o.payment_pin_generated_at = some g)
    (hexp : o.payment_pin_expires_at = some e)
    (hnow : now ≤ e)
    (hlk : lockedOut o now = false)
    (hne : o.payment_pin ≠ pyStrip c) :
    verify_payment_pin o c true now =
      some (false,
        if 0 < 5 - (o.payment_attempts + 1)
        then invalidPinMsg (5 - (o.payment_attempts + 1))
        else tooManyMsg,
        { o with
          payment_attempts := o.payment_attempts + 1
          last_payment_attempt := some now }) := by
  have hnp : ¬(o.payment_pin = "" ∨ o.payment_pin_generated_at = none) := by
    simp [hpin, hgen]
  exact verify_wrong_pin_inc o c now e hps hnp hexp (not_lt.mpr hnow) hlk hne

/-- Witness for C4: a first wrong attempt against the pinned order
leaves four attempts remaining. -/
theorem C4_wrong_pin_increments_and_reports_witness :
    verify_payment_pin pinnedOrder "000000" true 3600 =
      some (false, invalidPinMsg 4, pinnedOrderFailed) := by
  have h := C4_wrong_pin_increments_and_reports pinnedOrder "000000"
    3600 86400 0 (by decide) (by decide) (by decide) (by decide)
    (by decide) (by decide) (by decide)
  exact h.trans (by decide)

/-- C5: with payment unconfirmed, a present unexpired PIN and fewer
than five failed attempts, a trimmed-equal candidate verifies
successfully and the order value is returned unchanged, for either
setting of the increment flag. -/
theorem C5_correct_pin_success_no_mutation (o : Order) (c : String)
    (inc : Bool) (now e g : Int)
    (hps : o.payment_status = false)
    (hpin : o.payment_pin ≠ "")
    (hgen : o.payment_pin_generated_at = some g)
    (hexp : o.payment_pin_expires_at = some e)
    (hnow : now ≤ e)
    (hatt : o.payment_attempts < 5)
    (hc : pyStrip c = o.payment_pin) :
    verify_payment_pin o c inc now = some (true, verifiedMsg, o) := by
  have hnp : ¬(o.payment_pin = "" ∨ o.payment_pin_generated_at = none) := by
    simp [hpin, hgen]
  have hlk : lockedOut o now = false := by
    unfold lockedOut
    cases hl : o.last_payment_attempt with
    | none => rfl
    | some l => simp [not_le.mpr hatt]
  exact verify_correct_pin o c inc now e hps hnp hexp (not_lt.mpr hnow) hlk
    hc.symm

/-- Witness for C5: a whitespace-padded correct candidate succeeds and
returns the pinned order itself. -/
theorem C5_correct_pin_success_no_mutation_witness :
    verify_payment_pin pinnedOrder " 123456 " true 5000 =
      some (true, verifiedMsg, pinnedOrder) :=
  C5_correct_pin_success_no_mutation pinnedOrder " 123456 " true
    5000 86400 0 (by decide) (by decide) (by decide) (by decide)
    (by decide) (by decide) (by decide)

/-- C7: can_generate_new_pin is true exactly when no PIN was ever
generated, or the current PIN is not valid (expired or absent), or at
least one hour has elapsed since generation; in particular it is true
on a freshly constructed order and false immediately after a
successful generation. -/
theorem C7_cooldown_characterization (o : Order) (now : Int) :
    (can_generate_new_pin o now = true ↔
      (o.payment_pin_generated_at = none ∨
       is_payment_pin_valid o now = false ∨
       (∃ g, o.payment_pin_generated_at = some g ∧ 3600 ≤ now - g))) ∧
    can_generate_new_pin newOrder now = true ∧
    (∀ db seeds user p o2,
        generate_payment_pin o db seeds user now = some (p, o2) →
        can_generate_new_pin o2 now = false) := by
  refine ⟨?_, rfl, ?_⟩
  · unfold can_generate_new_pin
    cases hg : o.payment_pin_generated_at with
    | none => simp
    | some g =>
        by_cases hv : is_payment_pin_valid o now = true
        · simp [hv, hg]
        · simp only [Bool.not_eq_true] at hv
          simp [hv, hg]
  · intro db seeds user p o2 hgen2
    obtain ⟨hd, rfl⟩ := generate_eq o db seeds user now p o2 hgen2
    obtain ⟨⟨s, rfl⟩, -⟩ := drawUniquePin_spec seeds db now p hd
    have hpne : pinFromSeed s ≠ "" := by
      simp [ne_eq, String.ext_iff, pinFromSeed]
    have hval : is_payment_pin_valid
        { o with
          payment_pin := pinFromSeed s
          payment_pin_generated_at := some now
          payment_pin_expires_at := some (now + 24 * 60 * 60)
          payment_attempts := 0
          last_payment_attempt := none
          payment_verified_by :=
            if user.isSome then user else o.payment_verified_by } now = true := by
      unfold is_payment_pin_valid
      rw [if_neg hpne]
      simp only [decide_eq_true_eq]
      omega
    unfold can_generate_new_pin
    dsimp only
    rw [if_pos hval]
    simp

/-- Witness for C7: true on the fresh order, false right after the
concrete generation at time 0. -/
theorem C7_cooldown_characterization_witness :
    can_generate_new_pin newOrder 0 = true ∧
    can_generate_new_pin newOrderGen 0 = false := by
  refine ⟨(C7_cooldown_characterization newOrder 0).2.1, ?_⟩
  exact (C7_cooldown_characterization newOrder 0).2.2 [] [0] none "000000"
    newOrderGen (by decide)

/-- C9 counterexample: the uniqueness query only matches rows whose
expiry is strictly in the future, while is_payment_pin_valid also
accepts an expiry equal to now; generating at the exact expiry instant
of an identical PIN held by another order does not redraw, leaving two
simultaneously valid orders with the same PIN value. -/
theorem C9_boundary_shared_pin_counterexample :
    is_payment_pin_valid boundaryOrder 0 = true ∧
    generate_payment_pin newOrder [boundaryOrder] [0] none 0 =
      some ("000000", newOrderGen) ∧
    is_payment_pin_valid newOrderGen 0 = true ∧
    newOrderGen.payment_pin = boundaryOrder.payment_pin := by decide

/-- C9 amended: every returned PIN is exactly six ASCII digits and has
no conflict among the visible rows with strictly unexpired PINs, so
distinctness of PIN values among strictly unexpired rows is preserved
when the regenerated order joins them; a row whose PIN expires exactly
at the generation instant is not excluded, although the validity
predicate still accepts it at that instant. -/
theorem C9_pin_unique_among_strictly_unexpired (o : Order) (db : List Order)
    (seeds : List Nat) (user : Option Nat) (now : Int) (p : String)
    (o2 : Order)
    (h : generate_payment_pin o db seeds user now = some (p, o2)) :
    (p.length = 6 ∧ p.data.all Char.isDigit = true) ∧
    hasLivePinConflict db p now = false ∧
    (distinctLivePins db now → distinctLivePins (o2 :: db) now) := by
  obtain ⟨hd, rfl⟩ := generate_eq o db seeds user now p o2 h
  obtain ⟨⟨s, rfl⟩, hcf⟩ := drawUniquePin_spec seeds db now p hd
  refine ⟨⟨pinFromSeed_length s, pinFromSeed_digits s⟩, hcf, ?_⟩
  intro hdist
  unfold distinctLivePins at hdist ⊢
  rw [List.pairwise_cons]
  refine ⟨?_, hdist⟩
  intro b hb h2 hb2
  simp only [hasLivePinConflict, List.any_eq_false, Bool.and_eq_true,
    decide_eq_true_eq, not_and] at hcf
  intro heq
  exact hcf b hb heq.symm hb2

/-- Witness for C9 at a concrete generation: six digits, no live
conflict, and distinctness extended to the generated row. -/
theorem C9_pin_unique_among_strictly_unexpired_witness :
    ("000000" : String).length = 6 ∧
    hasLivePinConflict [] "000000" 0 = false ∧
    distinctLivePins [newOrderGen] 0 := by
  have h := C9_pin_unique_among_strictly_unexpired newOrder [] [0] none 0
    "000000" newOrderGen (by decide)
  exact ⟨h.1.1, h.2.1, h.2.2 List.Pairwise.nil⟩

/-- C10: confirm_payment leaves both PIN timestamps untouched, yet the
PIN is reported invalid at every later inspection instant, because the
stored PIN string has been cleared to empty. -/
theorem C10_confirm_frames_timestamps_and_invalidates_pin
    (o : Order) (user : Option Nat) (now t : Int) :
    (confirm_payment o user now).2.payment_pin_generated_at =
      o.payment_pin_generated_at ∧
    (confirm_payment o user now).2.payment_pin_expires_at =
      o.payment_pin_expires_at ∧
    is_payment_pin_valid (confirm_payment o user now).2 t = false := by
  refine ⟨rfl, rfl, ?_⟩
  simp [is_payment_pin_valid, confirm_payment]

end Shop
